import Mathlib

/-!
A shallow embedding of the `panic-safe` crate (src/lib.rs): an out-of-memory
condition is converted into a recoverable `AllocError` value while every other
panic aborts the process.  The thread-local mailbox `THREAD_ALLOC_ERROR` is
modelled as an explicit `Option AllocError` value threaded through the
operations; `catch_oom` is modelled as a function of the guarded closure's
behaviour (normal return, allocation failure for some layout, or any other
panic) over an explicit process state; the installation gate on the
`SET_HOOK` atomic flag is additionally modelled as a two-thread interleaved
transition system to examine its behaviour under racing first calls.
-/

namespace PanicSafe

/-- Rust `std::alloc::Layout`: the size and alignment of one memory request. -/
structure Layout where
  size : Nat
  align : Nat
deriving DecidableEq

/-- The error type for allocation failure: `pub struct AllocError(Layout)`
(src/lib.rs:16).  The single field is the wrapped layout. -/
structure AllocError where
  layout : Layout
deriving DecidableEq

/-- Constructor `AllocError::new(layout)` (src/lib.rs:22-24). -/
def AllocError.new (layout : Layout) : AllocError :=
  ⟨layout⟩

/-- Rendering of `impl fmt::Display for AllocError` (src/lib.rs:44-54): the
format string is `"failed to allocate memory by required layout \x7bsize: ..,
align: ..\x7d"` with the size and alignment rendered in decimal. -/
def AllocError.display (e : AllocError) : String :=
  "failed to allocate memory by required layout \x7bsize: " ++
    Nat.repr e.layout.size ++ ", align: " ++ Nat.repr e.layout.align ++ "\x7d"

/-- State of the thread-local cell `THREAD_ALLOC_ERROR` (src/lib.rs:58-60):
at most one pending `AllocError`. -/
abbrev Mailbox := Option AllocError

namespace ThreadAllocError

/-- Checks if the current thread has a pending alloc error (src/lib.rs:76-78). -/
def has_error (mb : Mailbox) : Bool :=
  mb.isSome

/-- Injects an alloc error into the mailbox (src/lib.rs:67-72).  The first
component records whether the debug assertion `!has_error()` passes; the cell
is set to `Some e` regardless, as in the source. -/
def inject (e : AllocError) (mb : Mailbox) : Bool × Mailbox :=
  (!(has_error mb), some e)

/-- Takes the alloc error from the current thread (src/lib.rs:82-84):
returns the removed value together with the emptied cell (`Cell::take`). -/
def take (mb : Mailbox) : Option AllocError × Mailbox :=
  (mb, none)

/-- Clears the alloc error in the current thread: `let _ = take()`
(src/lib.rs:88-90). -/
def clear (mb : Mailbox) : Mailbox :=
  (take mb).2

end ThreadAllocError

/-- Allocation-error hook (src/lib.rs:93-96): records `AllocError(layout)`
into the mailbox, then panics.  Returns (debug assertion passed, new mailbox);
the subsequent panic is modelled at the use site in `catch_oom`. -/
def oom_hook (layout : Layout) (mb : Mailbox) : Bool × Mailbox :=
  ThreadAllocError.inject (AllocError.new layout) mb

/-- Panic hook installed by `catch_oom` (src/lib.rs:107-112): aborts the
process unless the mailbox holds an alloc error.  Returns true iff the
process aborts. -/
def panic_hook (mb : Mailbox) : Bool :=
  !(ThreadAllocError.has_error mb)

/-- Behaviour of the guarded closure: it returns a value normally, or it hits
an allocation failure for some layout (the runtime then invokes `oom_hook`,
which records the error and starts an unwind), or it raises any other panic. -/
inductive CompOutcome (R : Type) where
  | normal (r : R)
  | allocFail (layout : Layout)
  | otherPanic

/-- Observable result of a `catch_oom` call: `ok`/`err` are the two sides of
the returned `Result`; `aborted` means the panic hook called
`std::process::abort()`; `unreachable` marks the `take() == None` branch
after an unwind (src/lib.rs:127-129), which the source treats as dead code. -/
inductive CatchResult (R : Type) where
  | ok (r : R)
  | err (e : AllocError)
  | aborted
  | unreachable

/-- Relevant process state for one thread running `catch_oom`: the global
`SET_HOOK` flag and this thread's mailbox. -/
structure ProcState where
  setHook : Bool
  mailbox : Mailbox
deriving DecidableEq

/-- Layout of the boxed panic hook `Layout::new::<Hook>()` with
`Hook = Box<dyn Fn(&PanicInfo) + Sync + Send>` (src/lib.rs:105,116): a fat
pointer, 16 bytes with alignment 8 on a 64-bit target. -/
def hookLayout : Layout :=
  ⟨16, 8⟩

/-- Tail of `catch_oom` once the closure has started an unwind: the installed
panic hook runs first against the current mailbox (abort if it is empty,
src/lib.rs:109-111); otherwise `catch_unwind` returns the error case and the
mailbox is taken (src/lib.rs:126-131). -/
def unwindReturn (R : Type) (st : ProcState) : CatchResult R × ProcState :=
  if panic_hook st.mailbox then
    (CatchResult.aborted, st)
  else
    match ThreadAllocError.take st.mailbox with
    | (none, mb2) => (CatchResult.unreachable, { st with mailbox := mb2 })
    | (some e, mb2) => (CatchResult.err e, { st with mailbox := mb2 })

/-- Body of `catch_oom` after the installation gate (src/lib.rs:122-132):
clear this thread's mailbox, run the closure under `catch_unwind`, and
convert the outcome.  An allocation failure first runs `oom_hook` (filling
the mailbox) and then unwinds; any other panic unwinds with the mailbox
still empty. -/
def catch_oomRun {R : Type} (outcome : CompOutcome R) (st : ProcState) :
    CatchResult R × ProcState :=
  let st1 : ProcState := { st with mailbox := ThreadAllocError.clear st.mailbox }
  match outcome with
  | CompOutcome.normal r => (CatchResult.ok r, st1)
  | CompOutcome.allocFail l =>
      unwindReturn R { st1 with mailbox := (oom_hook l st1.mailbox).2 }
  | CompOutcome.otherPanic => unwindReturn R st1

/-- The guarded invocation `catch_oom` (src/lib.rs:104-133).  `boxAllocFails`
models whether `Box::try_new(panic_hook)` fails on the installation path
(src/lib.rs:116), in which case the call returns early with
`Err(AllocError::new(Layout::new::<Hook>()))` before touching the mailbox or
registering any hook; `outcome` is the closure's behaviour. -/
def catch_oom {R : Type} (boxAllocFails : Bool) (outcome : CompOutcome R)
    (st : ProcState) : CatchResult R × ProcState :=
  if !st.setHook then
    if boxAllocFails then
      (CatchResult.err (AllocError.new hookLayout), st)
    else
      catch_oomRun outcome { st with setHook := true }
  else
    catch_oomRun outcome st

/-- Program counter of one thread moving through the installation gate
(src/lib.rs:115-120): `atLoad` is about to execute `SET_HOOK.load(Acquire)`;
`atBody` has seen `false` and is about to register both hooks
(src/lib.rs:116-118); `atStore` is about to execute
`SET_HOOK.store(true, Release)`. -/
inductive PC where
  | atLoad
  | atBody
  | atStore
  | done
deriving DecidableEq

/-- Global state of two threads racing through the installation gate:
the `SET_HOOK` flag, each thread's program counter, and per-thread records
`d0`, `d1` of whether that thread executed the hook-registration body. -/
structure RaceState where
  flag : Bool
  pc0 : PC
  pc1 : PC
  d0 : Bool
  d1 : Bool
deriving DecidableEq

/-- One atomic step of a thread at the gate, given its pc, the flag and its
registration record: the load (branching on the flag), the registration body,
or the store of `true`.  A finished thread does nothing. -/
def threadStep (pc : PC) (flag : Bool) (d : Bool) : PC × Bool × Bool :=
  match pc with
  | PC.atLoad => (if flag then PC.done else PC.atBody, flag, d)
  | PC.atBody => (PC.atStore, flag, true)
  | PC.atStore => (PC.done, true, d)
  | PC.done => (PC.done, flag, d)

/-- Schedules one step of thread 1 when `t` is true, else of thread 0. -/
def raceStep (t : Bool) (s : RaceState) : RaceState :=
  if t then
    let r := threadStep s.pc1 s.flag s.d1
    { s with pc1 := r.1, flag := r.2.1, d1 := r.2.2 }
  else
    let r := threadStep s.pc0 s.flag s.d0
    { s with pc0 := r.1, flag := r.2.1, d0 := r.2.2 }

/-- Runs an interleaving (a list of thread choices) from a state. -/
def runSchedule (sched : List Bool) (s : RaceState) : RaceState :=
  sched.foldl (fun a t => raceStep t a) s

/-- Initial state: both threads make their first `catch_oom` call while the
`SET_HOOK` flag is still false and neither has registered anything. -/
def raceInit : RaceState :=
  ⟨false, PC.atLoad, PC.atLoad, false, false⟩

/-- Number of threads that executed the hook-registration body
(src/lib.rs:116-118). -/
def installs (s : RaceState) : Nat :=
  (if s.d0 then 1 else 0) + (if s.d1 then 1 else 0)

/-- C1: a computation that completes normally makes `catch_oom` return `Ok`
carrying exactly its value, and the thread's mailbox holds no pending
`AllocError` afterward; in particular `catch_oom(|| 42)` returns `Ok(42)`. -/
theorem C1_catch_oom_normal_ok :
    (∀ (R : Type) (r : R) (st : ProcState),
        (catch_oom false (CompOutcome.normal r) st).1 = CatchResult.ok r ∧
        (catch_oom false (CompOutcome.normal r) st).2.mailbox = none) ∧
    catch_oom false (CompOutcome.normal 42) ⟨false, none⟩ =
      (CatchResult.ok (42 : Nat), ⟨true, none⟩) := by
  constructor
  · intro R r st
    cases st with
    | mk sh mb =>
      cases sh <;>
        simp [catch_oom, catch_oomRun, ThreadAllocError.clear, ThreadAllocError.take]
  · rfl

/-- C2: a computation hitting an allocation failure for layout `L` makes
`catch_oom` return `Err(AllocError::new(L))` (so its `layout()` is `L`), the
mailbox is left empty (taken), and a subsequent `catch_oom` call on the same
thread behaves exactly as from a fresh post-installation state with any
mailbox content, i.e. independently of the first call. -/
theorem C2_catch_oom_allocFail :
    ∀ (R : Type) (L : Layout) (st : ProcState),
      (catch_oom (R := R) false (CompOutcome.allocFail L) st).1 =
          CatchResult.err (AllocError.new L) ∧
      (catch_oom (R := R) false (CompOutcome.allocFail L) st).2 =
          ⟨true, none⟩ ∧
      (∀ (R2 : Type) (o2 : CompOutcome R2) (b2 : Bool) (mb : Mailbox),
          catch_oom b2 o2
              (catch_oom (R := R) false (CompOutcome.allocFail L) st).2 =
            catch_oom b2 o2 ⟨true, mb⟩) := by
  intro R L st
  cases st with
  | mk sh mb =>
    refine ⟨?_, ?_, ?_⟩
    · cases sh <;> rfl
    · cases sh <;> rfl
    · intro R2 o2 b2 mb2
      cases sh <;> cases o2 <;> rfl

/-- C3: a panic that is not an allocation failure leaves the mailbox empty
when the panic hook runs, so the process aborts and `catch_oom` returns no
value (neither `Ok` nor `Err`) to its caller. -/
theorem C3_otherPanic_aborts :
    ∀ (R : Type) (st : ProcState),
      (catch_oom (R := R) false CompOutcome.otherPanic st).1 =
        CatchResult.aborted := by
  intro R st
  cases st with
  | mk sh mb => cases sh <;> rfl

/-- C4: the branch of `catch_oom` where the closure unwound but the mailbox
is empty (`take() == None`, src/lib.rs:127-129) is dead: no behaviour of the
closure, no installation outcome and no starting state produces the
`unreachable` result, and that branch is not an `ok`/`err` `Result` but the
loud `unreachable` marker. -/
theorem C4_none_branch_unreachable :
    ∀ (R : Type) (b : Bool) (o : CompOutcome R) (st : ProcState),
      (catch_oom b o st).1 ≠ CatchResult.unreachable := by
  intro R b o st
  cases st with
  | mk sh mb =>
    cases sh <;> cases b <;> cases o <;>
      simp [catch_oom, catch_oomRun, unwindReturn, oom_hook,
        ThreadAllocError.inject, ThreadAllocError.clear, ThreadAllocError.take,
        panic_hook, ThreadAllocError.has_error]

/-- C5: evaluation of the installation gate at a racing interleaving: both
threads load `SET_HOOK == false` before either store (schedule
thread0-load, thread1-load, thread0-body, thread0-store, thread1-body,
thread1-store); both finish and the hook-registration body runs twice, so
installation is not once-only under racing first calls. -/
theorem C5_race_double_install :
    (runSchedule [false, true, false, false, true, true] raceInit).pc0 =
        PC.done ∧
    (runSchedule [false, true, false, false, true, true] raceInit).pc1 =
        PC.done ∧
    installs (runSchedule [false, true, false, false, true, true] raceInit) =
        2 := by
  decide

/-- C6: constructor/accessor round trip: for every layout `L`,
`AllocError::new(L).layout()` is exactly `L`. -/
theorem C6_new_layout_roundtrip :
    ∀ (L : Layout), (AllocError.new L).layout = L := by
  intro L
  rfl

/-- C7: the displayed text of an `AllocError` over (size S, align A) is
exactly `failed to allocate memory by required layout \x7bsize: S, align: A\x7d`
with S and A in decimal; in particular for S = 1048576 and A = 8 the message
is that exact string. -/
theorem C7_display_format :
    (∀ (s a : Nat),
        (AllocError.new ⟨s, a⟩).display =
          "failed to allocate memory by required layout \x7bsize: " ++
            Nat.repr s ++ ", align: " ++ Nat.repr a ++ "\x7d") ∧
    (AllocError.new ⟨1048576, 8⟩).display =
      "failed to allocate memory by required layout \x7bsize: 1048576, align: 8\x7d" := by
  constructor
  · intro s a
    rfl
  · decide

/-- C8: on a first call (flag unset) where `Box::try_new` fails, `catch_oom`
returns `Err(AllocError::new(Layout::new::<Hook>()))` with the result
independent of the closure (it never runs), the mailbox unchanged (not
cleared) and the `SET_HOOK` flag still false (no hook installed). -/
theorem C8_try_new_failure :
    ∀ (R : Type) (o : CompOutcome R) (mb : Mailbox),
      catch_oom true o ⟨false, mb⟩ =
        (CatchResult.err (AllocError.new hookLayout), ⟨false, mb⟩) := by
  intro R o mb
  rfl

/-- C9: `inject` always stores the given error in the mailbox, and its debug
assertion `!has_error()` passes exactly when the mailbox was empty; a call on
an occupied mailbox is flagged by the assertion and the value is stored
anyway. -/
theorem C9_inject_contract :
    ∀ (e : AllocError) (mb : Mailbox),
      (ThreadAllocError.inject e mb).2 = some e ∧
      ((ThreadAllocError.inject e mb).1 = true ↔ mb = none) := by
  intro e mb
  refine ⟨rfl, ?_⟩
  cases mb <;> simp [ThreadAllocError.inject, ThreadAllocError.has_error]

/-- C10: `clear` is idempotent (clearing twice equals clearing once), and
after `clear` the mailbox reports no error and `take` yields nothing. -/
theorem C10_clear_idempotent :
    ∀ (mb : Mailbox),
      ThreadAllocError.clear (ThreadAllocError.clear mb) =
          ThreadAllocError.clear mb ∧
      ThreadAllocError.has_error (ThreadAllocError.clear mb) = false ∧
      (ThreadAllocError.take (ThreadAllocError.clear mb)).1 = none := by
  intro mb
  exact ⟨rfl, rfl, rfl⟩

end PanicSafe
